import Mathlib

/-!
Shallow embedding of the "Multiple Windows" Anki add-on (src/__init__.py).

The add-on monkey-patches the host's DialogManager.open so that dialogs whose
name is configured as "multiple" get a fresh instance each time, tracked in a
bookkeeping list, while other dialogs keep the host's singleton behaviour.

Modelling choices:
- The add-on config dict is a record: an optional "multiple" map (an
  association list from dialog name to Bool) together with the names of any
  other keys stored in the dict (their values are irrelevant to the add-on).
- The host's addonManager storage is an `Option Cfg` (None or a stored dict);
  `getConfig(...) or ... ` is modelled by defaulting to the empty dict.
- The host's registry `dialogs._dialogs` is an association list from name to
  entry; an entry is either a tuple of values (older Anki builds) or a
  dataclass-like object with optional `creator` / `creator_func` attributes.
  Python values are abstracted to the one distinction the code makes:
  callable (carrying the behaviour profile of the widgets it constructs) or
  not callable.  A failing dict lookup (KeyError) is the `none` case.
- Widget instances are natural-number ids; their mutable attributes
  (presence of `close`, the wrapped flag, the `destroyed` signal, whether
  `qconnect` succeeds, whether the destroy handler got connected) live in a
  per-instance record.  Creator calls allocate a fresh id.
- `_original_open` is kept symbolic: `OpenResult.original name args` is "the
  value the saved original DialogManager.open returns for these arguments".
- Close calls and widget destruction are events of a small step semantics on
  a `World` holding the config storage, the registry, the tracked-instance
  list `_open_multi_dialogs`, the instance attributes and the fresh counter.
-/

namespace MultipleWindows

/-! ### Configuration (src/__init__.py lines 18-43) -/

/-- The add-on's config dict: the optional "multiple" name-to-Bool map plus
the keys of any other entries the stored dict may contain. -/
structure Cfg where
  multiple : Option (List (String × Bool))
  extraKeys : List String
deriving DecidableEq, Repr

/-- The empty dict, used when the host storage has no config. -/
def emptyCfg : Cfg := ⟨none, []⟩

/-- The defaults written on first run. -/
def defaultMultiple : List (String × Bool) :=
  [("default", true), ("About", false), ("Preferences", false)]

/-- Result of `_get_config`: the returned cfg, the storage after the call and
whether `writeConfig` was invoked. -/
structure GetConfigResult where
  cfg : Cfg
  store : Option Cfg
  wrote : Bool
deriving DecidableEq, Repr

/-- `_get_config`: load the config (an absent one counts as the empty dict),
lazily initialize the "multiple" map with defaults and persist it back. -/
def _get_config (st : Option Cfg) : GetConfigResult :=
  let cfg := st.getD emptyCfg
  match cfg.multiple with
  | some _ => ⟨cfg, st, false⟩
  | none =>
      let cfg2 : Cfg := { cfg with multiple := some defaultMultiple }
      ⟨cfg2, some cfg2, true⟩

/-- Decision taken on an already-loaded cfg: the per-name flag when the name
is a key of the "multiple" map, else that map's "default" flag, else True. -/
def shouldFromCfg (cfg : Cfg) (name : String) : Bool :=
  let m := cfg.multiple.getD []
  match m.lookup name with
  | some b => b
  | none => (m.lookup "default").getD true

/-- `should_be_multiple`: reload the config and decide for `name`. -/
def should_be_multiple (st : Option Cfg) (name : String) : Bool :=
  shouldFromCfg (_get_config st).cfg name

/-- A cfg dict is nonempty when it has at least one key. -/
def cfgNonempty (c : Cfg) : Prop :=
  c.multiple.isSome = true ∨ c.extraKeys ≠ []

/-! ### Registry and creator resolution (src/__init__.py lines 60-95) -/

/-- Behaviour profile of the widgets a creator constructs: whether they have
a `close` attribute, whether they expose a `destroyed` signal, and whether
`qconnect` on that signal succeeds. -/
structure CreatorProfile where
  hasClose : Bool
  hasDestroyed : Bool
  connectOk : Bool
deriving DecidableEq, Repr

/-- A Python value as far as the resolver cares: callable or not. -/
inductive PyVal where
  | callableV (prof : CreatorProfile)
  | dataV
deriving DecidableEq, Repr

/-- `callable(v)` for a present value. -/
def isCallable : PyVal → Bool
  | .callableV _ => true
  | .dataV => false

/-- `callable(getattr(entry, attr, None))`: None is not callable. -/
def attrCallable : Option PyVal → Bool
  | some v => isCallable v
  | none => false

/-- A registry entry: classic tuple storage, or a dataclass-like object with
optional `creator` and `creator_func` attributes. -/
inductive RegEntry where
  | tup (elems : List PyVal)
  | obj (creator : Option PyVal) (creator_func : Option PyVal)
deriving DecidableEq, Repr

/-- The host's `dialogs._dialogs` mapping. -/
abbrev Registry := List (String × RegEntry)

/-- `_resolve_creator`: tolerant lookup of the creator function for `name`.
A raising dict access is the `none` lookup case. -/
def _resolve_creator (reg : Registry) (name : String) : Option PyVal :=
  match reg.lookup name with
  | none => none
  | some (.tup []) => none
  | some (.tup (c :: _)) => if isCallable c then some c else none
  | some (.obj cr crf) =>
      if attrCallable cr then cr
      else if attrCallable crf then crf
      else none

/-! ### Instances and bookkeeping (src/__init__.py lines 98-173) -/

/-- Mutable attributes of a created widget instance. -/
structure InstState where
  hasClose : Bool
  closeWrapped : Bool
  wrapCount : Nat
  hasDestroyed : Bool
  connectOk : Bool
  destroyedConnected : Bool
  createdArgs : Nat
deriving DecidableEq, Repr

/-- Attributes of a widget freshly built by a creator with profile `prof`,
called with (a token for) the arguments `args`. -/
def initInstState (prof : CreatorProfile) (args : Nat) : InstState :=
  ⟨prof.hasClose, false, 0, prof.hasDestroyed, prof.connectOk, false, args⟩

/-- `_remove_instance`: drop `i` from the bookkeeping list if present. -/
def _remove_instance (l : List Nat) (i : Nat) : List Nat :=
  if i ∈ l then l.erase i else l

/-- `_wrap_close_for_instance` on the instance's attributes: no `close`
attribute or already wrapped means no-op; otherwise replace `close` by the
removing wrapper and set the wrapped flag.  `wrapCount` counts how many
wrapping layers were installed. -/
def _wrap_close_for_instance (s : InstState) : InstState :=
  if !s.hasClose then s
  else if s.closeWrapped then s
  else { s with closeWrapped := true, wrapCount := s.wrapCount + 1 }

/-- `_watch_qobject`: connect the removal handler to `destroyed` when the
signal exists; a failing `qconnect` is swallowed. -/
def _watch_qobject (s : InstState) : InstState :=
  if !s.hasDestroyed then s
  else if s.connectOk then { s with destroyedConnected := true }
  else s

/-! ### The patched open and the event semantics (lines 105-133, 177) -/

/-- State of the patched system: config storage, host registry, the tracked
list `_open_multi_dialogs`, the created instances and a fresh-id counter. -/
structure World where
  store : Option Cfg
  registry : Registry
  openMultiDialogs : List Nat
  insts : List (Nat × InstState)
  nextInst : Nat
deriving DecidableEq, Repr

/-- What a call to the patched open returns: the original function's result
for these arguments, or a freshly created instance. -/
inductive OpenResult where
  | original (name : String) (args : Nat)
  | inst (i : Nat)
deriving DecidableEq, Repr

/-- `_open_patched`: consult the config, fall back to `_original_open` for
single-instance names or an unresolvable creator, otherwise build a fresh
instance, append it to the tracked list and wire up its cleanup.  The
`dataV` branch is unreachable: `_resolve_creator` only returns callables. -/
def _open_patched (w : World) (name : String) (args : Nat) : OpenResult × World :=
  let w1 : World := { w with store := (_get_config w.store).store }
  if should_be_multiple w.store name = false then
    (OpenResult.original name args, w1)
  else
    match _resolve_creator w.registry name with
    | none => (OpenResult.original name args, w1)
    | some PyVal.dataV => (OpenResult.original name args, w1)
    | some (PyVal.callableV prof) =>
        (OpenResult.inst w.nextInst,
          { w1 with
              openMultiDialogs := w.openMultiDialogs ++ [w.nextInst],
              insts := (w.nextInst,
                _watch_qobject (_wrap_close_for_instance (initInstState prof args))) :: w.insts,
              nextInst := w.nextInst + 1 })

/-- Calling `instance.close()`: when `close` was wrapped, the wrapper first
removes the instance from the tracked list, then runs the original close. -/
def callClose (w : World) (i : Nat) : World :=
  match w.insts.lookup i with
  | none => w
  | some s =>
      if s.closeWrapped then
        { w with openMultiDialogs := _remove_instance w.openMultiDialogs i }
      else w

/-- Qt destroying the widget: when the handler was connected, the
`destroyed` signal fires `on_destroyed`, which removes the instance. -/
def fireDestroyed (w : World) (i : Nat) : World :=
  match w.insts.lookup i with
  | none => w
  | some s =>
      if s.destroyedConnected then
        { w with openMultiDialogs := _remove_instance w.openMultiDialogs i }
      else w

/-- External events the patched system reacts to. -/
inductive Event where
  | openEv (name : String) (args : Nat)
  | closeEv (i : Nat)
  | destroyEv (i : Nat)
deriving DecidableEq, Repr

/-- One step of the system. -/
def step (w : World) : Event → World
  | .openEv name args => (_open_patched w name args).2
  | .closeEv i => callClose w i
  | .destroyEv i => fireDestroyed w i

/-- Run a sequence of events. -/
def run (w : World) : List Event → World
  | [] => w
  | e :: es => run (step w e) es

/-- Well-formedness of a world: the tracked list has no duplicates and only
holds already-allocated ids. -/
abbrev goodWorld (w : World) : Prop :=
  w.openMultiDialogs.Nodup ∧ ∀ i ∈ w.openMultiDialogs, i < w.nextInst

/-! ### Helper lemmas -/

theorem remove_instance_subset (l : List Nat) (i : Nat) :
    _remove_instance l i ⊆ l := by
  unfold _remove_instance
  split
  · exact List.erase_subset i l
  · exact fun a ha => ha

theorem remove_instance_nodup {l : List Nat} (i : Nat) (h : l.Nodup) :
    (_remove_instance l i).Nodup := by
  unfold _remove_instance
  split
  · exact h.erase i
  · exact h

theorem remove_instance_not_mem_self {l : List Nat} (h : l.Nodup) (i : Nat) :
    i ∉ _remove_instance l i := by
  unfold _remove_instance
  split
  · exact h.not_mem_erase
  · assumption

theorem remove_instance_eq_of_not_mem {l : List Nat} {i : Nat} (h : i ∉ l) :
    _remove_instance l i = l := by
  unfold _remove_instance
  simp [h]

theorem open_patched_eq_single (w : World) (name : String) (args : Nat)
    (h : should_be_multiple w.store name = false) :
    _open_patched w name args =
      (OpenResult.original name args, { w with store := (_get_config w.store).store }) := by
  simp [_open_patched, h]

theorem open_patched_eq_no_creator (w : World) (name : String) (args : Nat)
    (h1 : should_be_multiple w.store name = true)
    (h2 : _resolve_creator w.registry name = none) :
    _open_patched w name args =
      (OpenResult.original name args, { w with store := (_get_config w.store).store }) := by
  simp [_open_patched, h1, h2]

theorem open_patched_eq_create (w : World) (name : String) (args : Nat)
    (prof : CreatorProfile)
    (h1 : should_be_multiple w.store name = true)
    (h2 : _resolve_creator w.registry name = some (PyVal.callableV prof)) :
    _open_patched w name args =
      (OpenResult.inst w.nextInst,
        { w with
            store := (_get_config w.store).store,
            openMultiDialogs := w.openMultiDialogs ++ [w.nextInst],
            insts := (w.nextInst,
              _watch_qobject (_wrap_close_for_instance (initInstState prof args))) :: w.insts,
            nextInst := w.nextInst + 1 }) := by
  simp [_open_patched, h1, h2]

theorem open_patched_eq_data (w : World) (name : String) (args : Nat)
    (h1 : should_be_multiple w.store name = true)
    (h2 : _resolve_creator w.registry name = some PyVal.dataV) :
    _open_patched w name args =
      (OpenResult.original name args, { w with store := (_get_config w.store).store }) := by
  simp [_open_patched, h1, h2]

theorem goodWorld_open_patched (w : World) (name : String) (args : Nat)
    (hw : goodWorld w) : goodWorld ((_open_patched w name args).2) := by
  obtain ⟨h1, h2⟩ := hw
  simp only [_open_patched]
  split
  · exact ⟨h1, h2⟩
  · split
    · exact ⟨h1, h2⟩
    · exact ⟨h1, h2⟩
    · refine ⟨?_, ?_⟩
      · rw [List.nodup_append]
        refine ⟨h1, List.nodup_singleton _, ?_⟩
        intro a ha hb
        rw [List.mem_singleton] at hb
        subst hb
        exact absurd (h2 _ ha) (lt_irrefl _)
      · intro i hi
        rw [List.mem_append, List.mem_singleton] at hi
        rcases hi with hi | hi
        · exact Nat.lt_succ_of_lt (h2 _ hi)
        · subst hi
          exact Nat.lt_succ_self _

theorem goodWorld_callClose (w : World) (i : Nat) (hw : goodWorld w) :
    goodWorld (callClose w i) := by
  obtain ⟨h1, h2⟩ := hw
  unfold callClose
  split
  · exact ⟨h1, h2⟩
  · split
    · exact ⟨remove_instance_nodup _ h1, fun j hj => h2 j (remove_instance_subset _ _ hj)⟩
    · exact ⟨h1, h2⟩

theorem goodWorld_fireDestroyed (w : World) (i : Nat) (hw : goodWorld w) :
    goodWorld (fireDestroyed w i) := by
  obtain ⟨h1, h2⟩ := hw
  unfold fireDestroyed
  split
  · exact ⟨h1, h2⟩
  · split
    · exact ⟨remove_instance_nodup _ h1, fun j hj => h2 j (remove_instance_subset _ _ hj)⟩
    · exact ⟨h1, h2⟩

theorem goodWorld_step (w : World) (e : Event) (hw : goodWorld w) :
    goodWorld (step w e) := by
  cases e with
  | openEv name args => exact goodWorld_open_patched w name args hw
  | closeEv i => exact goodWorld_callClose w i hw
  | destroyEv i => exact goodWorld_fireDestroyed w i hw

theorem goodWorld_run (w : World) (evs : List Event) (hw : goodWorld w) :
    goodWorld (run w evs) := by
  induction evs generalizing w with
  | nil => exact hw
  | cons e es ih => exact ih (step w e) (goodWorld_step w e hw)

/-! ### Claim theorems -/

/-- Claim C4: `should_be_multiple name` returns the boolean stored under
`name` in the configuration's name-to-boolean map when the name is present,
and otherwise the map's "default" flag, treated as `true` when the
"default" key is itself absent. -/
theorem should_be_multiple_lookup_spec (st : Option Cfg) (name : String)
    (m : List (String × Bool)) (hm : (_get_config st).cfg.multiple = some m) :
    (∀ b, m.lookup name = some b → should_be_multiple st name = b) ∧
    (m.lookup name = none →
      ∀ d, m.lookup "default" = some d → should_be_multiple st name = d) ∧
    (m.lookup name = none → m.lookup "default" = none →
      should_be_multiple st name = true) := by
  unfold should_be_multiple shouldFromCfg
  rw [hm]
  refine ⟨?_, ?_, ?_⟩
  · intro b hb
    simp [hb]
  · intro hn d hd
    simp [hn, hd]
  · intro hn hd
    simp [hn, hd]

/-- Witness for C4 at the first-run defaults: "About" maps to `false`. -/
theorem should_be_multiple_lookup_spec_witness :
    (∀ b, defaultMultiple.lookup "About" = some b →
      should_be_multiple none "About" = b) ∧
    (defaultMultiple.lookup "About" = none →
      ∀ d, defaultMultiple.lookup "default" = some d →
        should_be_multiple none "About" = d) ∧
    (defaultMultiple.lookup "About" = none →
      defaultMultiple.lookup "default" = none →
      should_be_multiple none "About" = true) :=
  should_be_multiple_lookup_spec none "About" defaultMultiple (by decide)

/-- Claim C5: whenever the stored add-on configuration has no "multiple"
map, `_get_config` initializes the map to the defaults (default true, About
false, Preferences false), persists the updated configuration exactly then,
and in every case returns a nonempty configuration containing the
"multiple" map; `should_be_multiple` reloads the config on each lookup. -/
theorem get_config_init_spec (st : Option Cfg) :
    (_get_config st).cfg.multiple.isSome = true ∧
    cfgNonempty (_get_config st).cfg ∧
    ((_get_config st).wrote = true ↔ (st.getD emptyCfg).multiple = none) ∧
    ((st.getD emptyCfg).multiple = none →
      (_get_config st).cfg.multiple = some defaultMultiple ∧
      (_get_config st).store = some (_get_config st).cfg) ∧
    ((st.getD emptyCfg).multiple ≠ none →
      (_get_config st).wrote = false ∧
      (_get_config st).store = st ∧
      (_get_config st).cfg = st.getD emptyCfg) ∧
    (∀ name, should_be_multiple st name = shouldFromCfg (_get_config st).cfg name) := by
  rcases h : (st.getD emptyCfg).multiple with _ | m <;>
    simp [_get_config, h, cfgNonempty, should_be_multiple]

/-- Witness for C5 on the empty storage (first run). -/
theorem get_config_init_spec_witness :
    (_get_config none).cfg.multiple.isSome = true ∧
    cfgNonempty (_get_config none).cfg ∧
    ((_get_config none).wrote = true ↔ ((none : Option Cfg).getD emptyCfg).multiple = none) ∧
    (((none : Option Cfg).getD emptyCfg).multiple = none →
      (_get_config none).cfg.multiple = some defaultMultiple ∧
      (_get_config none).store = some (_get_config none).cfg) ∧
    (((none : Option Cfg).getD emptyCfg).multiple ≠ none →
      (_get_config none).wrote = false ∧
      (_get_config none).store = none ∧
      (_get_config none).cfg = (none : Option Cfg).getD emptyCfg) ∧
    (∀ name, should_be_multiple none name = shouldFromCfg (_get_config none).cfg name) :=
  get_config_init_spec none

/-- Claim C9: `_resolve_creator` is total: an absent name, an empty tuple, a
tuple with a non-callable head, and an object without callable creator or
creator_func attribute all yield `none`; any returned value is callable and
is the tuple's first element or the entry's creator / creator_func. -/
theorem resolve_creator_total_spec (reg : Registry) (name : String) :
    (reg.lookup name = none → _resolve_creator reg name = none) ∧
    (reg.lookup name = some (RegEntry.tup []) → _resolve_creator reg name = none) ∧
    (∀ c rest, reg.lookup name = some (RegEntry.tup (c :: rest)) →
      isCallable c = false → _resolve_creator reg name = none) ∧
    (∀ cr crf, reg.lookup name = some (RegEntry.obj cr crf) →
      attrCallable cr = false → attrCallable crf = false →
      _resolve_creator reg name = none) ∧
    (∀ v, _resolve_creator reg name = some v →
      isCallable v = true ∧
      ∃ entry, reg.lookup name = some entry ∧
        ((∃ rest, entry = RegEntry.tup (v :: rest)) ∨
         (∃ crf, entry = RegEntry.obj (some v) crf) ∨
         (∃ cr, entry = RegEntry.obj cr (some v)))) := by
  refine ⟨?_, ?_, ?_, ?_, ?_⟩
  · intro h
    simp [_resolve_creator, h]
  · intro h
    simp [_resolve_creator, h]
  · intro c rest h hc
    simp [_resolve_creator, h, hc]
  · intro cr crf h hcr hcrf
    simp [_resolve_creator, h, hcr, hcrf]
  · intro v hv
    unfold _resolve_creator at hv
    rcases hl : reg.lookup name with _ | entry
    · rw [hl] at hv
      simp at hv
    · rw [hl] at hv
      cases entry with
      | tup elems =>
        cases elems with
        | nil => simp at hv
        | cons c rest =>
          simp at hv
          rcases hv with ⟨hc, rfl⟩
          exact ⟨hc, _, rfl, Or.inl ⟨rest, rfl⟩⟩
      | obj cr crf =>
        rcases cr with _ | u
        · rcases crf with _ | u2
          · simp [attrCallable] at hv
          · cases hu2 : isCallable u2 <;> simp [attrCallable, hu2] at hv
            rcases hv with rfl
            exact ⟨hu2, _, rfl, Or.inr (Or.inr ⟨none, rfl⟩)⟩
        · cases hu : isCallable u <;> simp [attrCallable, hu] at hv
          · rcases crf with _ | u2
            · simp [attrCallable] at hv
            · cases hu2 : isCallable u2 <;> simp [attrCallable, hu2] at hv
              rcases hv with rfl
              exact ⟨hu2, _, rfl, Or.inr (Or.inr ⟨some u, rfl⟩)⟩
          · rcases hv with rfl
            exact ⟨hu, _, rfl, Or.inr (Or.inl ⟨crf, rfl⟩)⟩

/-- Witness for C9 on a two-entry registry. -/
theorem resolve_creator_total_spec_witness :
    let reg : Registry :=
      [("Browser", RegEntry.tup [PyVal.callableV ⟨true, true, true⟩]),
       ("Stats", RegEntry.obj (some PyVal.dataV) none)]
    (reg.lookup "About" = none → _resolve_creator reg "About" = none) ∧
    (reg.lookup "About" = some (RegEntry.tup []) → _resolve_creator reg "About" = none) ∧
    (∀ c rest, reg.lookup "About" = some (RegEntry.tup (c :: rest)) →
      isCallable c = false → _resolve_creator reg "About" = none) ∧
    (∀ cr crf, reg.lookup "About" = some (RegEntry.obj cr crf) →
      attrCallable cr = false → attrCallable crf = false →
      _resolve_creator reg "About" = none) ∧
    (∀ v, _resolve_creator reg "About" = some v →
      isCallable v = true ∧
      ∃ entry, reg.lookup "About" = some entry ∧
        ((∃ rest, entry = RegEntry.tup (v :: rest)) ∨
         (∃ crf, entry = RegEntry.obj (some v) crf) ∨
         (∃ cr, entry = RegEntry.obj cr (some v)))) :=
  resolve_creator_total_spec
    [("Browser", RegEntry.tup [PyVal.callableV ⟨true, true, true⟩]),
     ("Stats", RegEntry.obj (some PyVal.dataV) none)] "About"

/-- Claim C10: cleanup is idempotent: `_remove_instance` on an untracked
instance leaves the list unchanged (so a close-then-destroy double fire
removes at most once), and `_wrap_close_for_instance` on an already-wrapped
instance is a no-op guarded by the wrapped flag, so close is never wrapped
twice. -/
theorem cleanup_idempotent (l : List Nat) (i : Nat) (s : InstState) (h : i ∉ l) :
    _remove_instance l i = l ∧
    (s.closeWrapped = true → _wrap_close_for_instance s = s) ∧
    _wrap_close_for_instance (_wrap_close_for_instance s) = _wrap_close_for_instance s ∧
    (s.wrapCount = 0 →
      (_wrap_close_for_instance (_wrap_close_for_instance s)).wrapCount ≤ 1) := by
  refine ⟨remove_instance_eq_of_not_mem h, ?_, ?_, ?_⟩
  · intro hw
    unfold _wrap_close_for_instance
    simp [hw]
  · rcases s with ⟨hc, cw, n, hd, co, dc, a⟩
    cases hc <;> cases cw <;> simp [_wrap_close_for_instance]
  · intro h0
    rcases s with ⟨hc, cw, n, hd, co, dc, a⟩
    simp only [InstState.wrapCount] at h0
    subst h0
    cases hc <;> cases cw <;> simp [_wrap_close_for_instance]

/-- Witness for C10: untracked id 5 and a fresh unwrapped instance state. -/
theorem cleanup_idempotent_witness :
    _remove_instance [2] 5 = [2] ∧
    ((initInstState ⟨true, true, true⟩ 0).closeWrapped = true →
      _wrap_close_for_instance (initInstState ⟨true, true, true⟩ 0) =
        initInstState ⟨true, true, true⟩ 0) ∧
    _wrap_close_for_instance (_wrap_close_for_instance (initInstState ⟨true, true, true⟩ 0)) =
      _wrap_close_for_instance (initInstState ⟨true, true, true⟩ 0) ∧
    ((initInstState ⟨true, true, true⟩ 0).wrapCount = 0 →
      (_wrap_close_for_instance
        (_wrap_close_for_instance (initInstState ⟨true, true, true⟩ 0))).wrapCount ≤ 1) :=
  cleanup_idempotent [2] 5 (initInstState ⟨true, true, true⟩ 0) (by decide)

/-! ### Concrete worlds used by the witnesses -/

/-- A world whose config marks "About" as single-instance. -/
def wSingle : World := ⟨some ⟨some [("About", false)], []⟩, [], [], [], 0⟩

/-- A world with defaults and a registered Browser creator whose widgets
carry close and destroyed attributes and connect fine. -/
def wMulti : World :=
  ⟨none, [("Browser", RegEntry.tup [PyVal.callableV ⟨true, true, true⟩])], [], [], 0⟩

/-- Like `wMulti` but `qconnect` on the created widgets fails. -/
def wMultiBad : World :=
  ⟨none, [("Browser", RegEntry.tup [PyVal.callableV ⟨true, true, false⟩])], [], [], 0⟩

/-- A world with defaults and an empty registry. -/
def wEmptyReg : World := ⟨none, [], [], [], 0⟩

/-- A world already tracking instance 0, fully wired up. -/
def wTracked : World := ⟨none, [], [0], [(0, ⟨true, true, 1, true, true, true, 7⟩)], 1⟩

/-- Claim C1: for a dialog name whose configuration does not allow multiple
instances, the patched open routes to the saved original open and returns
its result; no instance is created and the tracked list, the instance table
and the registry are untouched. -/
theorem open_patched_single_instance_uses_original (w : World) (name : String)
    (args : Nat) (h : should_be_multiple w.store name = false) :
    (_open_patched w name args).1 = OpenResult.original name args ∧
    ((_open_patched w name args).2).openMultiDialogs = w.openMultiDialogs ∧
    ((_open_patched w name args).2).insts = w.insts ∧
    ((_open_patched w name args).2).nextInst = w.nextInst ∧
    ((_open_patched w name args).2).registry = w.registry := by
  rw [open_patched_eq_single w name args h]
  exact ⟨rfl, rfl, rfl, rfl, rfl⟩

/-- Witness for C1: "About" is configured single-instance in `wSingle`. -/
theorem open_patched_single_instance_uses_original_witness :
    (_open_patched wSingle "About" 3).1 = OpenResult.original "About" 3 ∧
    ((_open_patched wSingle "About" 3).2).openMultiDialogs = wSingle.openMultiDialogs ∧
    ((_open_patched wSingle "About" 3).2).insts = wSingle.insts ∧
    ((_open_patched wSingle "About" 3).2).nextInst = wSingle.nextInst ∧
    ((_open_patched wSingle "About" 3).2).registry = wSingle.registry :=
  open_patched_single_instance_uses_original wSingle "About" 3 (by decide)

/-- Claim C2: for a multiplicity-allowed name with a resolvable creator, the
patched open builds a fresh instance via that creator applied to the given
arguments, appends it to the tracked list, wires up the close wrapper and
the destroy watcher on it, and returns the new instance. -/
theorem open_patched_multi_creates_and_tracks (w : World) (name : String)
    (args : Nat) (prof : CreatorProfile)
    (h1 : should_be_multiple w.store name = true)
    (h2 : _resolve_creator w.registry name = some (PyVal.callableV prof)) :
    (_open_patched w name args).1 = OpenResult.inst w.nextInst ∧
    ((_open_patched w name args).2).openMultiDialogs =
      w.openMultiDialogs ++ [w.nextInst] ∧
    ((_open_patched w name args).2).insts =
      (w.nextInst,
        _watch_qobject (_wrap_close_for_instance (initInstState prof args))) :: w.insts ∧
    (initInstState prof args).createdArgs = args ∧
    ((_open_patched w name args).2).nextInst = w.nextInst + 1 := by
  rw [open_patched_eq_create w name args prof h1 h2]
  exact ⟨rfl, rfl, rfl, rfl, rfl⟩

/-- Witness for C2: opening "Browser" twice worth of state in `wMulti`. -/
theorem open_patched_multi_creates_and_tracks_witness :
    (_open_patched wMulti "Browser" 4).1 = OpenResult.inst wMulti.nextInst ∧
    ((_open_patched wMulti "Browser" 4).2).openMultiDialogs =
      wMulti.openMultiDialogs ++ [wMulti.nextInst] ∧
    ((_open_patched wMulti "Browser" 4).2).insts =
      (wMulti.nextInst,
        _watch_qobject (_wrap_close_for_instance
          (initInstState ⟨true, true, true⟩ 4))) :: wMulti.insts ∧
    (initInstState ⟨true, true, true⟩ 4).createdArgs = 4 ∧
    ((_open_patched wMulti "Browser" 4).2).nextInst = wMulti.nextInst + 1 :=
  open_patched_multi_creates_and_tracks wMulti "Browser" 4 ⟨true, true, true⟩
    (by decide) (by decide)

/-- Claim C3: the patched open never writes the host's singleton cache: the
registry after any call equals the registry before, and in the creation
case the new instance goes only into the separate tracked list. -/
theorem open_patched_preserves_singleton_cache (w : World) (name : String)
    (args : Nat) :
    ((_open_patched w name args).2).registry = w.registry ∧
    (∀ prof, should_be_multiple w.store name = true →
      _resolve_creator w.registry name = some (PyVal.callableV prof) →
      ((_open_patched w name args).2).openMultiDialogs =
        w.openMultiDialogs ++ [w.nextInst]) := by
  constructor
  · cases hb : should_be_multiple w.store name
    · rw [open_patched_eq_single w name args hb]
    · rcases hr : _resolve_creator w.registry name with _ | v
      · rw [open_patched_eq_no_creator w name args hb hr]
      · cases v with
        | dataV => rw [open_patched_eq_data w name args hb hr]
        | callableV prof => rw [open_patched_eq_create w name args prof hb hr]
  · intro prof h1 h2
    rw [open_patched_eq_create w name args prof h1 h2]

/-- Witness for C3 on `wMulti`. -/
theorem open_patched_preserves_singleton_cache_witness :
    ((_open_patched wMulti "Browser" 4).2).registry = wMulti.registry ∧
    (∀ prof, should_be_multiple wMulti.store "Browser" = true →
      _resolve_creator wMulti.registry "Browser" = some (PyVal.callableV prof) →
      ((_open_patched wMulti "Browser" 4).2).openMultiDialogs =
        wMulti.openMultiDialogs ++ [wMulti.nextInst]) :=
  open_patched_preserves_singleton_cache wMulti "Browser" 4

/-- Claim C7: for a multiplicity-allowed name with no resolvable creator the
patched open does not raise: it falls back to the original open and returns
its result, creating and tracking nothing. -/
theorem open_patched_fallback_no_creator (w : World) (name : String) (args : Nat)
    (h1 : should_be_multiple w.store name = true)
    (h2 : _resolve_creator w.registry name = none) :
    (_open_patched w name args).1 = OpenResult.original name args ∧
    ((_open_patched w name args).2).openMultiDialogs = w.openMultiDialogs ∧
    ((_open_patched w name args).2).insts = w.insts ∧
    ((_open_patched w name args).2).nextInst = w.nextInst := by
  rw [open_patched_eq_no_creator w name args h1 h2]
  exact ⟨rfl, rfl, rfl, rfl⟩

/-- Witness for C7: "Browser" is multi-allowed but unregistered in
`wEmptyReg`. -/
theorem open_patched_fallback_no_creator_witness :
    (_open_patched wEmptyReg "Browser" 2).1 = OpenResult.original "Browser" 2 ∧
    ((_open_patched wEmptyReg "Browser" 2).2).openMultiDialogs =
      wEmptyReg.openMultiDialogs ∧
    ((_open_patched wEmptyReg "Browser" 2).2).insts = wEmptyReg.insts ∧
    ((_open_patched wEmptyReg "Browser" 2).2).nextInst = wEmptyReg.nextInst :=
  open_patched_fallback_no_creator wEmptyReg "Browser" 2 (by decide) (by decide)

/-- Claim C8: destruction of a tracked widget whose destroy handler got
connected removes it from the tracked list; and when `qconnect` fails at
wiring time the exception is swallowed: the patched open still returns the
new instance, which then simply has no destroy handler. -/
theorem destroy_cleanup_and_connect_failure (w : World) (i : Nat) (s : InstState)
    (hw : goodWorld w) (hs : w.insts.lookup i = some s)
    (hc : s.destroyedConnected = true) :
    i ∉ (fireDestroyed w i).openMultiDialogs ∧
    (∀ (w2 : World) (name : String) (args : Nat) (prof : CreatorProfile),
      should_be_multiple w2.store name = true →
      _resolve_creator w2.registry name = some (PyVal.callableV prof) →
      prof.connectOk = false →
      (_open_patched w2 name args).1 = OpenResult.inst w2.nextInst ∧
      ((_open_patched w2 name args).2).insts.lookup w2.nextInst =
        some (_watch_qobject (_wrap_close_for_instance (initInstState prof args))) ∧
      (_watch_qobject (_wrap_close_for_instance
        (initInstState prof args))).destroyedConnected = false) := by
  constructor
  · unfold fireDestroyed
    rw [hs]
    simp only [hc, if_true]
    exact remove_instance_not_mem_self hw.1 i
  · intro w2 name args prof h1 h2 hcf
    rw [open_patched_eq_create w2 name args prof h1 h2]
    refine ⟨rfl, by simp [List.lookup], ?_⟩
    rcases prof with ⟨pc, pd, po⟩
    simp only [CreatorProfile.connectOk] at hcf
    subst hcf
    cases pc <;> cases pd <;>
      simp [initInstState, _wrap_close_for_instance, _watch_qobject]

/-- Witness for C8 on `wTracked`, whose instance 0 is fully wired. -/
theorem destroy_cleanup_and_connect_failure_witness :
    0 ∉ (fireDestroyed wTracked 0).openMultiDialogs ∧
    (∀ (w2 : World) (name : String) (args : Nat) (prof : CreatorProfile),
      should_be_multiple w2.store name = true →
      _resolve_creator w2.registry name = some (PyVal.callableV prof) →
      prof.connectOk = false →
      (_open_patched w2 name args).1 = OpenResult.inst w2.nextInst ∧
      ((_open_patched w2 name args).2).insts.lookup w2.nextInst =
        some (_watch_qobject (_wrap_close_for_instance (initInstState prof args))) ∧
      (_watch_qobject (_wrap_close_for_instance
        (initInstState prof args))).destroyedConnected = false) :=
  destroy_cleanup_and_connect_failure wTracked 0 ⟨true, true, 1, true, true, true, 7⟩
    (by constructor <;> decide) (by decide) (by decide)

/-- Claim C6: across every sequence of patched opens, closes and destroys
the tracked list stays well formed: it never holds a duplicate (each
instance is in it at most once, having been added exactly once at
creation: an open either leaves the list alone or appends one fresh
element), and running a wrapped close removes the instance from the list. -/
theorem tracked_instance_list_invariant (w : World) (evs : List Event)
    (hw : goodWorld w) :
    goodWorld (run w evs) ∧
    (∀ i : Nat, List.count i (run w evs).openMultiDialogs ≤ 1) ∧
    (∀ name args,
      (step (run w evs) (Event.openEv name args)).openMultiDialogs =
        (run w evs).openMultiDialogs ∨
      ∃ j, j ∉ (run w evs).openMultiDialogs ∧
        (step (run w evs) (Event.openEv name args)).openMultiDialogs =
          (run w evs).openMultiDialogs ++ [j]) ∧
    (∀ i s, (run w evs).insts.lookup i = some s → s.closeWrapped = true →
      i ∉ (callClose (run w evs) i).openMultiDialogs) := by
  have hg := goodWorld_run w evs hw
  refine ⟨hg, fun i => List.nodup_iff_count_le_one.1 hg.1 i, ?_, ?_⟩
  · intro name args
    cases hb : should_be_multiple (run w evs).store name
    · left
      simp only [step]
      rw [open_patched_eq_single (run w evs) name args hb]
    · rcases hr : _resolve_creator (run w evs).registry name with _ | v
      · left
        simp only [step]
        rw [open_patched_eq_no_creator (run w evs) name args hb hr]
      · cases v with
        | dataV =>
          left
          simp only [step]
          rw [open_patched_eq_data (run w evs) name args hb hr]
        | callableV prof =>
          right
          refine ⟨(run w evs).nextInst,
            fun hmem => absurd (hg.2 _ hmem) (lt_irrefl _), ?_⟩
          simp only [step]
          rw [open_patched_eq_create (run w evs) name args prof hb hr]
  · intro i s hs hc
    unfold callClose
    rw [hs]
    simp only [hc, if_true]
    exact remove_instance_not_mem_self hg.1 i

/-- Witness for C6: the empty-registry world run through an open, a close
and a destroy of instance 0. -/
theorem tracked_instance_list_invariant_witness :
    goodWorld (run wMulti [Event.openEv "Browser" 0, Event.closeEv 0,
      Event.destroyEv 0]) ∧
    (∀ i : Nat, List.count i (run wMulti [Event.openEv "Browser" 0,
      Event.closeEv 0, Event.destroyEv 0]).openMultiDialogs ≤ 1) ∧
    (∀ name args,
      (step (run wMulti [Event.openEv "Browser" 0, Event.closeEv 0,
          Event.destroyEv 0]) (Event.openEv name args)).openMultiDialogs =
        (run wMulti [Event.openEv "Browser" 0, Event.closeEv 0,
          Event.destroyEv 0]).openMultiDialogs ∨
      ∃ j, j ∉ (run wMulti [Event.openEv "Browser" 0, Event.closeEv 0,
          Event.destroyEv 0]).openMultiDialogs ∧
        (step (run wMulti [Event.openEv "Browser" 0, Event.closeEv 0,
          Event.destroyEv 0]) (Event.openEv name args)).openMultiDialogs =
          (run wMulti [Event.openEv "Browser" 0, Event.closeEv 0,
            Event.destroyEv 0]).openMultiDialogs ++ [j]) ∧
    (∀ i s, (run wMulti [Event.openEv "Browser" 0, Event.closeEv 0,
        Event.destroyEv 0]).insts.lookup i = some s → s.closeWrapped = true →
      i ∉ (callClose (run wMulti [Event.openEv "Browser" 0, Event.closeEv 0,
        Event.destroyEv 0]) i).openMultiDialogs) :=
  tracked_instance_list_invariant wMulti
    [Event.openEv "Browser" 0, Event.closeEv 0, Event.destroyEv 0]
    (by constructor <;> decide)

end MultipleWindows
